import Mathlib

/-!
Verification development for the bubble-hockey scoreboard repository.

The repository drives a bubble-hockey cabinet: `scoreboard.py` holds the
game-state machine (scores, clock, periods, celebrations, LED effects) and
`LED_color_picker.py` holds the color store persisted in `custom_colors.txt`.
This file embeds the relevant functions as Lean definitions, translated
directly from the Python source, and proves properties about them.
-/

namespace BubbleHockey

/-- RGB byte triple, as used throughout the scripts. -/
abbrev RGB := ℕ × ℕ × ℕ

/-! ### Decimal rendering and parsing

The color file stores RGB components as decimal text (written by Python
f-strings, read back through `int(...)`), and RFID card identifiers are
converted with `str(card_id)` before being used as JSON keys.  We model the
decimal rendering of a natural number and the parse of such canonical
decimal text. -/

/-- Little-endian decimal digits of `n`, with explicit fuel so the recursion
is structural (`fuel = n + 1` suffices since `n / 10 < n` for `n > 0`). -/
def natDigitsRev : ℕ → ℕ → List ℕ
  | 0, _ => []
  | fuel + 1, n => if n = 0 then [] else n % 10 :: natDigitsRev fuel (n / 10)

def digitToChar (d : ℕ) : Char := Char.ofNat (48 + d)

/-- Decimal rendering of a natural number; models Python `str(n)` and the
f-string rendering of the non-negative ints stored in the color file. -/
def natReprS (n : ℕ) : String :=
  if n = 0 then "0" else ⟨((natDigitsRev (n + 1) n).map digitToChar).reverse⟩

def charDigitVal (c : Char) : ℕ := c.toNat - 48

/-- Value of a little-endian digit list. -/
def ofDigitsRev : List ℕ → ℕ
  | [] => 0
  | d :: ds => d + 10 * ofDigitsRev ds

/-- Model of Python `int(...)` applied to a numeric field of the color file.
The files written by the scripts only ever contain canonical decimal digit
runs, so the sign/whitespace/underscore forms accepted by `int` are not
needed here: any non-digit input is a parse failure (a `ValueError`). -/
def pyIntS (s : String) : Option ℕ :=
  if s.data ≠ [] ∧ s.data.all (fun c => c.isDigit) then
    some (s.data.foldl (fun a c => a * 10 + charDigitVal c) 0)
  else none

/-! ### The color store (`LED_color_picker.py`)

`ColorPicker.save_colors` writes one comma-separated line per entry:
`name,ledR,ledG,ledB,displayR,displayG,displayB`.  `ColorPicker.load_colors`
reads the file back, accepting both the 7-field form and the older 4-field
form `name,R,G,B` (whose RGB triple is duplicated into both slots, with the
file rewritten in 7-field form).  We model the file at the granularity the
parser sees after `line.strip()` / `line.split(',')`: a list of lines, each
a list of comma-separated fields (so names are assumed free of commas and
newlines, which `save_colors` cannot round-trip in any case). -/

/-- One entry of the color store: `(name, led_rgb, display_rgb)`,
the tuples held in `ColorPicker.saved_colors`. -/
structure CEntry where
  name : String
  led : RGB
  disp : RGB
deriving DecidableEq

/-- The 7 fields `save_colors` writes for one entry. -/
def entryFields (e : CEntry) : List String :=
  [e.name, natReprS e.led.1, natReprS e.led.2.1, natReprS e.led.2.2,
    natReprS e.disp.1, natReprS e.disp.2.1, natReprS e.disp.2.2]

/-- `ColorPicker.save_colors`: the file contents written for a store. -/
def saveColors (cs : List CEntry) : List (List String) := cs.map entryFields

/-- One iteration of the `load_colors` read loop.  `Except.error` models the
`int(...)` `ValueError` that aborts the whole load; `Except.ok none` models a
line that is silently skipped (field count other than 4 or 7, including the
empty line that `if not line: continue` drops).  The `Bool` is whether the
line was in the old 4-field format (`converted_from_old`). -/
def parseColorLine (parts : List String) : Except Unit (Option (CEntry × Bool)) :=
  match parts with
  | [n, a, b, c] =>
    match pyIntS a, pyIntS b, pyIntS c with
    | some x, some y, some z => .ok (some (⟨n, (x, y, z), (x, y, z)⟩, true))
    | _, _, _ => .error ()
  | [n, a, b, c, d, e, f] =>
    match pyIntS a, pyIntS b, pyIntS c, pyIntS d, pyIntS e, pyIntS f with
    | some x1, some y1, some z1, some x2, some y2, some z2 =>
      .ok (some (⟨n, (x1, y1, z1), (x2, y2, z2)⟩, false))
    | _, _, _, _, _, _ => .error ()
  | _ => .ok none

/-- The `load_colors` read loop over the whole file: the parsed entries in
order together with the `converted_from_old` flag, or the exception. -/
def parseColorFile : List (List String) → Except Unit (List CEntry × Bool)
  | [] => .ok ([], false)
  | l :: ls =>
    match parseColorLine l, parseColorFile ls with
    | .ok none, .ok (es, conv) => .ok (es, conv)
    | .ok (some (e, c)), .ok (es, conv) => .ok (e :: es, c || conv)
    | _, _ => .error ()

/-- The fallback store installed by the `except` clause of `load_colors`
(note the third name is `White`, not `Default White`). -/
def defaultEntriesOnError : List CEntry :=
  [⟨"Default Red", (255, 0, 0), (200, 0, 0)⟩, ⟨"Black", (0, 0, 0), (0, 0, 0)⟩,
    ⟨"White", (255, 255, 255), (255, 255, 255)⟩]

/-- The entry appended when fewer than two entries were read. -/
def blackEntry : CEntry := ⟨"Black", (0, 0, 0), (0, 0, 0)⟩

/-- `ColorPicker.load_colors` on an existing file: returns the resulting
store together with the resulting file contents (the file is rewritten via
`save_colors` when a 4-field line was converted — note this happens before
the `len < 2` padding, so the padding `Black` entry is not written). -/
def loadColors (file : List (List String)) : List CEntry × List (List String) :=
  match parseColorFile file with
  | .error _ => (defaultEntriesOnError, file)
  | .ok (es, conv) =>
    let file2 := if conv then saveColors es else file
    let es2 := if es.length < 2 then es ++ [blackEntry] else es
    (es2, file2)

/-- The defaults created when the color file does not exist yet. -/
def defaultEntriesNew : List CEntry :=
  [⟨"Default Red", (255, 0, 0), (200, 0, 0)⟩, ⟨"Black", (0, 0, 0), (0, 0, 0)⟩,
    ⟨"Default White", (255, 255, 255), (255, 255, 255)⟩]

/-- `load_colors` including its missing-file branch, which writes the
default store and returns early. -/
def loadColorsInit (fileExists : Bool) (file : List (List String)) :
    List CEntry × List (List String) :=
  if fileExists then loadColors file else (defaultEntriesNew, saveColors defaultEntriesNew)

/-- The padding `load_colors` applies to a short store. -/
def padBlack (cs : List CEntry) : List CEntry :=
  if cs.length < 2 then cs ++ [blackEntry] else cs

/-- A 4-field (old format) line for a `(name, rgb)` pair. -/
def oldFields (p : String × RGB) : List String :=
  [p.1, natReprS p.2.1, natReprS p.2.2.1, natReprS p.2.2.2]

/-- A whole file in the old 4-field format. -/
def oldFile (ps : List (String × RGB)) : List (List String) := ps.map oldFields

/-- The documented upgrade of a 4-field entry: the single RGB triple is
duplicated into both color slots. -/
def dupEntry (p : String × RGB) : CEntry := ⟨p.1, p.2, p.2⟩

/-! ### The color-picker editing state and its operations

The fields of `ColorPicker` that the store-mutating key handlers touch.
Purely visual state (fonts, the animation modes, the key-repeat timers) is
not modelled; `save_colors` side effects on the file are covered by
`saveColors` above. -/

structure PickerState where
  savedColors : List CEntry
  primaryIndex : ℕ
  secondaryIndex : ℕ
  currentLedRgb : RGB
  currentDisplayRgb : RGB
  isSaving : Bool
  inputText : String
  editingModeLed : Bool
  colorsChanged : Bool
deriving DecidableEq

/-- `ColorPicker.update_current_colors_from_selection`. -/
def updateCurrentColorsFromSelection (st : PickerState) : PickerState :=
  if st.savedColors ≠ [] ∧ st.primaryIndex < st.savedColors.length then
    match st.savedColors[st.primaryIndex]? with
    | some e => { st with currentLedRgb := e.led, currentDisplayRgb := e.disp }
    | none => st
  else st

/-- The `K_DELETE` handler: refuses to delete the last remaining entry
(`if self.saved_colors and len(self.saved_colors) > 1`), otherwise pops the
primary entry, clamps both selection indices, refreshes the current colors
and persists (`save_colors`, modelled separately by `saveColors`). -/
def deleteColor (st : PickerState) : PickerState :=
  if st.savedColors ≠ [] ∧ 1 < st.savedColors.length then
    let saved2 := st.savedColors.eraseIdx st.primaryIndex
    updateCurrentColorsFromSelection
      { st with savedColors := saved2,
                primaryIndex := min st.primaryIndex (saved2.length - 1),
                secondaryIndex := min st.secondaryIndex (saved2.length - 1) }
  else st

/-- The `K_a` handler: appends a blank entry and selects it. -/
def addColor (st : PickerState) : PickerState :=
  let saved2 := st.savedColors ++ [⟨"New Color", (0, 0, 0), (0, 0, 0)⟩]
  updateCurrentColorsFromSelection
    { st with savedColors := saved2, primaryIndex := saved2.length - 1,
              colorsChanged := true }

/-- The `K_RETURN` handler while the rename dialog is open: replaces the
primary entry with the typed name and the current RGB values, persists, and
closes the dialog.  (`List.set` out of range is a no-op where the source
would raise an `IndexError`; the handlers keep the index in range.) -/
def renameColor (st : PickerState) : PickerState :=
  if st.inputText ≠ "" then
    { st with
      savedColors := st.savedColors.set st.primaryIndex
        ⟨st.inputText, st.currentLedRgb, st.currentDisplayRgb⟩,
      isSaving := false, inputText := "" }
  else st

def clampByte (v : ℤ) : ℕ := (max 0 (min 255 v)).toNat

/-- Bump one component of an RGB triple, clamped to `0..255`
(`max(0, min(255, rgb_to_edit[index] + direction))`). -/
def adjustComp (c : RGB) (i : ℕ) (d : ℤ) : RGB :=
  match i with
  | 0 => (clampByte ((c.1 : ℤ) + d), c.2.1, c.2.2)
  | 1 => (c.1, clampByte ((c.2.1 : ℤ) + d), c.2.2)
  | _ => (c.1, c.2.1, clampByte ((c.2.2 : ℤ) + d))

/-- An RGB adjustment key (`R/F/T/G/Y/H`): edits the LED or the DISPLAY
triple depending on the editing mode and marks the colors changed. -/
def rgbAdjust (st : PickerState) (i : ℕ) (d : ℤ) : PickerState :=
  if st.editingModeLed then
    { st with currentLedRgb := adjustComp st.currentLedRgb i d, colorsChanged := true }
  else
    { st with currentDisplayRgb := adjustComp st.currentDisplayRgb i d, colorsChanged := true }

/-- The `run` loop commit: when colors changed (and no rename dialog is
open), writes the current RGB values back into the primary entry and
persists. -/
def commitColors (st : PickerState) : PickerState :=
  if st.colorsChanged then
    if st.savedColors ≠ [] ∧ st.isSaving = false then
      match st.savedColors[st.primaryIndex]? with
      | some e =>
        { st with
          savedColors := st.savedColors.set st.primaryIndex
            ⟨e.name, st.currentLedRgb, st.currentDisplayRgb⟩,
          colorsChanged := false }
      | none => st
    else st
  else st

def cRedEntry : CEntry := ⟨"Default Red", (255, 0, 0), (200, 0, 0)⟩

def cBlueEntry : CEntry := ⟨"Blue", (0, 0, 200), (0, 0, 255)⟩

def singletonPicker : PickerState :=
  { savedColors := [cRedEntry], primaryIndex := 0, secondaryIndex := 0,
    currentLedRgb := (255, 0, 0), currentDisplayRgb := (200, 0, 0),
    isSaving := false, inputText := "", editingModeLed := true,
    colorsChanged := false }

/-! ### The scoreboard (`scoreboard.py`, feature-complete variant)

The repository holds two scoreboard variants; the claims and the spec follow
the feature-complete one (the first program in `scoreboard.py`, with RFID
and special celebrations).  We embed `GameState`, the LED strip state
(`pixels.brightness` and the pixel buffer), and the handlers and per-frame
update methods the claims are about. -/

/-- A custom color as held in `Scoreboard.custom_colors`:
`{'name': ..., 'led': ..., 'display': ...}`. -/
structure ColorDict where
  name : String
  led : RGB
  display : RGB
deriving DecidableEq

/-- A goal-celebration firework particle.  Only the lifetime matters to the
state machine (the motion fields are display-only); the claims only ever
observe the particle list being emptied. -/
structure Particle where
  lifetime : ℤ
deriving DecidableEq

/-- A stored player profile (one value of the `players.json` object). -/
structure PlayerData where
  name : String
  primaryColor : String
  secondaryColor : String
deriving DecidableEq

/-- The mutable `GameState` record.  Audio-only fields (`volume`,
`is_muted`, `volume_before_mute`), the RFID poll cooldowns and the save
popup flag are not touched by any verified claim and are omitted. -/
structure GameState where
  gameMode : String
  player1Name : String
  player2Name : String
  player1PrimaryColor : Option ColorDict
  player1SecondaryColor : Option ColorDict
  player2PrimaryColor : Option ColorDict
  player2SecondaryColor : Option ColorDict
  player1Ready : Bool
  player2Ready : Bool
  rfidSaveMessage : String
  rfidSaveMessageEndTime : ℕ
  rfidSaveMessagePlayer : Option ℕ
  rfidLoadMessage : String
  rfidLoadMessageEndTime : ℕ
  rfidLoadMessagePlayer : Option ℕ
  rfidWelcomeMessage : String
  rfidWelcomeMessageEndTime : ℕ
  rfidWelcomeMessagePlayer : Option ℕ
  rfidWelcomeMessageColor : RGB
  rfidScanAnimationActive : Bool
  rfidScanAnimationPlayer : Option ℕ
  rfidScanAnimationStartTime : ℕ
  rfidScanAnimationEndTime : ℕ
  rfidScanAnimationPriColor : RGB
  rfidScanAnimationSecColor : RGB
  usaScore : ℕ
  ussrScore : ℕ
  usaSog : ℕ
  ussrSog : ℕ
  period : ℕ
  gameClock : ℚ
  gameActive : Bool
  gameOver : Bool
  timeMultiplier : ℚ
  goalCelebrationTeam : Option String
  intermissionActive : Bool
  overtimeActive : Bool
  intermissionTimer : ℕ
  goalCelebrationTimer : ℕ
  recentSogTimer : ℕ
  goalAnimationActive : Bool
  goalAnimationTimer : ℕ
  goalAnimationFrameCounter : ℕ
  goalAnimationColor : RGB
  goalAnimationColorSec : RGB
  idleAnimationStep : ℕ
  particles : List Particle
  gameEndCelebrationActive : Bool
  winnerName : String
  motorActive : Bool
  motorStopTime : ℕ
  goalExpandStep : ℤ
  goalExpandDirection : ℤ
  goalExpandCenter : ℕ
  usaSpecialCelebration : Bool
  usaSpecialColors : Option (List RGB)
  ussrSpecialCelebration : Bool
  ussrSpecialColors : Option (List RGB)
  gameLightsSet : Bool

def FPS : ℕ := 60

def BASE_COUNT : ℕ := 201

def UNUSED_COUNT : ℕ := 0

def OVERHEAD_COUNT : ℕ := 128

def TOTAL_LED_COUNT : ℕ := BASE_COUNT + UNUSED_COUNT + OVERHEAD_COUNT

def OVERHEAD_START_INDEX : ℕ := BASE_COUNT + UNUSED_COUNT

def LED_BRIGHTNESS : ℚ := 1 / 2

def COLOR_BLACK : RGB := (0, 0, 0)

/-- `GameState.reset`: everything re-initialised for a new game.  Note that
it does not touch `game_mode` (the callers set that separately) and does not
touch the LED strip or its brightness.  The fresh clock is
`20 * 60 * 1000 = 1200000` ms, written as a literal so the rational stays
kernel-computable. -/
def GameState.reset (g : GameState) : GameState :=
  { g with
    usaScore := 0, ussrScore := 0, usaSog := 0, ussrSog := 0,
    period := 1,
    gameClock := 1200000,
    gameActive := false, gameOver := false,
    timeMultiplier := 10,
    goalCelebrationTeam := none,
    intermissionActive := false, overtimeActive := false,
    intermissionTimer := 0, goalCelebrationTimer := 0,
    recentSogTimer := 0,
    goalAnimationActive := false,
    goalAnimationTimer := 0,
    goalAnimationFrameCounter := 0,
    goalAnimationColor := (0, 0, 0),
    goalAnimationColorSec := (0, 0, 0),
    idleAnimationStep := 0,
    particles := [],
    gameEndCelebrationActive := false,
    winnerName := "",
    motorActive := false, motorStopTime := 0,
    goalExpandStep := 0, goalExpandDirection := 1, goalExpandCenter := 0,
    player1Ready := false, player2Ready := false,
    usaSpecialCelebration := false, usaSpecialColors := none,
    ussrSpecialCelebration := false, ussrSpecialColors := none,
    gameLightsSet := false }

/-- `GameState.__init__`: the setup-screen fields, then `reset()`. -/
def initGameState : GameState := GameState.reset
  { gameMode := "SETUP",
    player1Name := "USSR", player2Name := "USA",
    player1PrimaryColor := none, player1SecondaryColor := none,
    player2PrimaryColor := none, player2SecondaryColor := none,
    player1Ready := false, player2Ready := false,
    rfidSaveMessage := "", rfidSaveMessageEndTime := 0, rfidSaveMessagePlayer := none,
    rfidLoadMessage := "", rfidLoadMessageEndTime := 0, rfidLoadMessagePlayer := none,
    rfidWelcomeMessage := "", rfidWelcomeMessageEndTime := 0,
    rfidWelcomeMessagePlayer := none, rfidWelcomeMessageColor := (255, 255, 255),
    rfidScanAnimationActive := false, rfidScanAnimationPlayer := none,
    rfidScanAnimationStartTime := 0, rfidScanAnimationEndTime := 0,
    rfidScanAnimationPriColor := (0, 0, 0), rfidScanAnimationSecColor := (0, 0, 0),
    usaScore := 0, ussrScore := 0, usaSog := 0, ussrSog := 0,
    period := 1, gameClock := 0, gameActive := false, gameOver := false,
    timeMultiplier := 10, goalCelebrationTeam := none,
    intermissionActive := false, overtimeActive := false,
    intermissionTimer := 0, goalCelebrationTimer := 0, recentSogTimer := 0,
    goalAnimationActive := false, goalAnimationTimer := 0,
    goalAnimationFrameCounter := 0, goalAnimationColor := (0, 0, 0),
    goalAnimationColorSec := (0, 0, 0), idleAnimationStep := 0, particles := [],
    gameEndCelebrationActive := false, winnerName := "",
    motorActive := false, motorStopTime := 0,
    goalExpandStep := 0, goalExpandDirection := 1, goalExpandCenter := 0,
    usaSpecialCelebration := false, usaSpecialColors := none,
    ussrSpecialCelebration := false, ussrSpecialColors := none,
    gameLightsSet := false }

/-- `GameState.update_clock`: the clock counts down by `dt * time_multiplier`
only while the game is active, clamped at zero.  `dt` is the frame time in
milliseconds reported by `clock.tick`. -/
def GameState.updateClock (g : GameState) (dt : ℕ) : GameState :=
  if g.gameActive = true ∧ 0 < g.gameClock then
    let c := g.gameClock - dt * g.timeMultiplier
    { g with gameClock := if c < 0 then 0 else c }
  else g

/-- `Scoreboard.update_sog_timer`. -/
def GameState.updateSogTimer (g : GameState) : GameState :=
  if 0 < g.recentSogTimer then { g with recentSogTimer := g.recentSogTimer - 1 } else g

/-- The NeoPixel strip as the core sees it: a global brightness multiplier
and a buffer of RGB values indexed by pixel. -/
structure LedStrip where
  brightness : ℚ
  buf : ℕ → RGB

/-- The `Scoreboard` object state relevant to the claims: the game state,
the optional LED strip, the loaded custom colors, whether the faceoff motor
relay is available, and the video-interrupt flag. -/
structure Scoreboard where
  gameState : GameState
  pixels : Option LedStrip
  customColors : List ColorDict
  motorPresent : Bool
  videoInterruptRequested : Bool

/-- Python truthiness of `goal_celebration_team` (None or a team name):
`not team` is true exactly for `None` and the empty string. -/
def teamTruthy : Option String → Bool
  | none => false
  | some s => !(s == "")

/-- `color_dict['led']`.  The source would raise a `TypeError` on `None`;
every caller guards with the dict being set, so the default is never
observable. -/
def ledOf : Option ColorDict → RGB
  | some d => d.led
  | none => (0, 0, 0)

/-- `next((c['led'] for c in self.custom_colors if c['name'] == n), dflt)`. -/
def findLed (cs : List ColorDict) (n : String) (dflt : RGB) : RGB :=
  match cs.find? (fun c => c.name == n) with
  | some c => c.led
  | none => dflt

/-- The strip brightness, for stating properties (`0` when no strip). -/
def brightnessOf (sb : Scoreboard) : ℚ :=
  match sb.pixels with
  | some p => p.brightness
  | none => 0

/-- The pixel buffer at one index, for stating properties. -/
def bufAt (sb : Scoreboard) (i : ℕ) : RGB :=
  match sb.pixels with
  | some p => p.buf i
  | none => (0, 0, 0)

/-- `Scoreboard.clear_leds`: restore default brightness, blank every pixel,
flush, and drop the goal animation flag.  A no-op without a strip (the flag
reset is inside the `if self.pixels` guard in the source). -/
def clearLeds (sb : Scoreboard) : Scoreboard :=
  match sb.pixels with
  | some _ =>
    { sb with
      pixels := some ⟨LED_BRIGHTNESS, fun _ => (0, 0, 0)⟩,
      gameState := { sb.gameState with goalAnimationActive := false } }
  | none => sb

/-- `Scoreboard.trigger_game_end`: flags the game over, starts the win
celebration overlay and its 5-second timer, records the winner, and (when a
strip is present) raises brightness to maximum and starts the goal/win LED
animation in the winner's color. -/
def triggerGameEnd (winnerId : String) (sb : Scoreboard) : Scoreboard :=
  let g := sb.gameState
  let g : GameState := { g with gameOver := true, gameEndCelebrationActive := true,
                                goalCelebrationTimer := 5 * FPS }
  let winnerColorInfo : Option ColorDict :=
    if winnerId = "player1" then g.player1PrimaryColor else g.player2PrimaryColor
  let g : GameState := { g with
    winnerName := if winnerId = "player1" then g.player1Name else g.player2Name }
  match sb.pixels with
  | some p =>
    { sb with
      pixels := some { p with brightness := 1 },
      gameState := { g with goalAnimationActive := true, goalAnimationTimer := 5 * FPS,
                            goalAnimationColor := ledOf winnerColorInfo } }
  | none => { sb with gameState := g }

/-- `Scoreboard.handle_usa_goal` (the home / player-2 side). -/
def handleUsaGoal (sb : Scoreboard) : Scoreboard :=
  let g := sb.gameState
  if g.gameOver = false ∧ teamTruthy g.goalCelebrationTeam = false then
    let g : GameState := { g with usaScore := g.usaScore + 1 }
    let g : GameState :=
      if g.recentSogTimer = 0 then { g with usaSog := g.usaSog + 1 } else g
    let g : GameState := { g with goalExpandCenter := 46, goalExpandStep := 0,
                                  goalExpandDirection := 1, goalAnimationFrameCounter := 0 }
    let g : GameState := { g with ussrSpecialCelebration := false, ussrSpecialColors := none }
    let g : GameState :=
      if g.player2Name = "USA" ∧ g.player2PrimaryColor.isSome = true ∧
          g.player2PrimaryColor.map ColorDict.name = some "Blue" ∧
          g.player2SecondaryColor = none then
        { g with usaSpecialCelebration := true,
                 usaSpecialColors := some
                   [findLed sb.customColors "Default Red" (200, 0, 0),
                    findLed sb.customColors "Default White" (255, 255, 255),
                    findLed sb.customColors "Blue" (0, 0, 200)] }
      else { g with usaSpecialCelebration := false, usaSpecialColors := none }
    if g.overtimeActive = true then triggerGameEnd "player2" { sb with gameState := g }
    else
      let pix : Option LedStrip := match sb.pixels with
        | some p => some { p with brightness := 1 }
        | none => none
      let g : GameState := { g with
        goalAnimationActive := true, goalAnimationTimer := 5 * FPS,
        goalAnimationColor := ledOf g.player2PrimaryColor,
        goalAnimationColorSec :=
          match g.player2SecondaryColor with
          | some c => c.led
          | none => COLOR_BLACK,
        gameActive := false,
        goalCelebrationTeam := some g.player2Name }
      { sb with gameState := g, pixels := pix }
  else sb

/-- `Scoreboard.handle_ussr_goal` (the visitor / player-1 side); note the
source sets the animation flags before the special-celebration check here,
and leaves `goal_animation_color` untouched in the special branch. -/
def handleUssrGoal (sb : Scoreboard) : Scoreboard :=
  let g := sb.gameState
  if g.gameOver = false ∧ teamTruthy g.goalCelebrationTeam = false then
    let g : GameState := { g with ussrScore := g.ussrScore + 1 }
    let g : GameState :=
      if g.recentSogTimer = 0 then { g with ussrSog := g.ussrSog + 1 } else g
    let g : GameState := { g with goalExpandCenter := 146, goalExpandStep := 0,
                                  goalExpandDirection := 1, goalAnimationFrameCounter := 0 }
    if g.overtimeActive = true then triggerGameEnd "player1" { sb with gameState := g }
    else
      let pix : Option LedStrip := match sb.pixels with
        | some p => some { p with brightness := 1 }
        | none => none
      let g : GameState := { g with goalAnimationActive := true, goalAnimationTimer := 5 * FPS }
      let g : GameState := { g with usaSpecialCelebration := false, usaSpecialColors := none }
      let g : GameState :=
        if g.player1Name = "USSR" ∧ g.player1PrimaryColor.isSome = true ∧
            g.player1PrimaryColor.map ColorDict.name = some "Default Red" ∧
            g.player1SecondaryColor = none then
          { g with ussrSpecialCelebration := true,
                   ussrSpecialColors := some
                     [findLed sb.customColors "Default Red" (200, 0, 0),
                      findLed sb.customColors "Default White" (255, 255, 255)] }
        else
          { g with ussrSpecialCelebration := false, ussrSpecialColors := none,
                   goalAnimationColor := ledOf g.player1PrimaryColor,
                   goalAnimationColorSec :=
                     match g.player1SecondaryColor with
                     | some c => c.led
                     | none => COLOR_BLACK }
      let g : GameState :=
        { g with gameActive := false, goalCelebrationTeam := some g.player1Name }
      { sb with gameState := g, pixels := pix }
  else sb

/-- `Scoreboard.handle_usa_sog`. -/
def handleUsaSog (sb : Scoreboard) : Scoreboard :=
  let g := sb.gameState
  if g.gameOver = false ∧ teamTruthy g.goalCelebrationTeam = false then
    { sb with gameState := { g with usaSog := g.usaSog + 1, recentSogTimer := 60 } }
  else sb

/-- `Scoreboard.handle_ussr_sog`. -/
def handleUssrSog (sb : Scoreboard) : Scoreboard :=
  let g := sb.gameState
  if g.gameOver = false ∧ teamTruthy g.goalCelebrationTeam = false then
    { sb with gameState := { g with ussrSog := g.ussrSog + 1, recentSogTimer := 60 } }
  else sb

/-- `Scoreboard._start_faceoff_sequence` at wall-clock time `now` (ms):
clears the LEDs (restoring default brightness), pulses the motor, starts
the clock if it was not running, and clears the celebration side. -/
def startFaceoffSequence (now : ℕ) (sb : Scoreboard) : Scoreboard :=
  if sb.gameState.gameOver = false ∧ sb.gameState.motorActive = false then
    let sb : Scoreboard := clearLeds sb
    let g := sb.gameState
    let g : GameState := if sb.motorPresent then
        { g with motorActive := true, motorStopTime := now + 500 }
      else g
    let g : GameState := if g.gameActive = false then { g with gameActive := true } else g
    let g : GameState := { g with goalCelebrationTeam := none, gameLightsSet := false }
    { sb with gameState := g }
  else sb

/-- `Scoreboard.handle_player1_faceoff`: mode dispatch for the player-1
faceoff edge (SETUP toggles readiness, VIDEO requests early termination,
GAME runs the faceoff sequence). -/
def handlePlayer1Faceoff (now : ℕ) (sb : Scoreboard) : Scoreboard :=
  if sb.gameState.gameMode = "SETUP" then
    { sb with gameState :=
        { sb.gameState with player1Ready := !sb.gameState.player1Ready } }
  else if sb.gameState.gameMode = "VIDEO" then
    { sb with videoInterruptRequested := true }
  else startFaceoffSequence now sb

/-- `Scoreboard.handle_player2_faceoff`. -/
def handlePlayer2Faceoff (now : ℕ) (sb : Scoreboard) : Scoreboard :=
  if sb.gameState.gameMode = "SETUP" then
    { sb with gameState :=
        { sb.gameState with player2Ready := !sb.gameState.player2Ready } }
  else if sb.gameState.gameMode = "VIDEO" then
    { sb with videoInterruptRequested := true }
  else startFaceoffSequence now sb

/-- `Scoreboard.check_period_end`: only acts when the clock has run out and
no terminal/intermission/overtime state is active. -/
def checkPeriodEnd (sb : Scoreboard) : Scoreboard :=
  let g := sb.gameState
  if 0 < g.gameClock ∨ g.gameOver = true ∨ g.intermissionActive = true ∨
      g.overtimeActive = true then sb
  else
    let g : GameState := { g with gameActive := false }
    if g.period < 3 then
      { sb with gameState :=
          { g with intermissionActive := true, intermissionTimer := 3 * FPS } }
    else if g.period = 3 then
      if g.ussrScore = g.usaScore then
        { sb with gameState :=
            { g with overtimeActive := true, intermissionActive := true,
                     intermissionTimer := 3 * FPS } }
      else
        triggerGameEnd (if g.usaScore < g.ussrScore then "player1" else "player2")
          { sb with gameState := g }
    else { sb with gameState := g }

/-- `Scoreboard.update_intermission`: counts the 3-second timer down one
frame; on expiry either hands over to sudden death (overtime already
flagged) or starts the next period with a fresh clock. -/
def updateIntermission (sb : Scoreboard) : Scoreboard :=
  if sb.gameState.intermissionActive = false then sb
  else
    let g : GameState :=
      { sb.gameState with intermissionTimer := sb.gameState.intermissionTimer - 1 }
    if g.intermissionTimer = 0 then
      let sb : Scoreboard :=
        clearLeds { sb with gameState := { g with intermissionActive := false } }
      let g2 : GameState := { sb.gameState with gameLightsSet := false }
      if g2.overtimeActive = true then { sb with gameState := g2 }
      else
        { sb with gameState :=
            { g2 with period := g2.period + 1, gameClock := 1200000,
                      gameActive := true } }
    else { sb with gameState := g }

/-- `Scoreboard.update_goal_celebration_timer`: counts the celebration
timer down one frame; on expiry clears the celebration side and the
particles, then either ends the win-celebration overlay (clearing overtime)
or drops the game-over flag. -/
def updateGoalCelebrationTimer (g : GameState) : GameState :=
  if 0 < g.goalCelebrationTimer then
    let g : GameState := { g with goalCelebrationTimer := g.goalCelebrationTimer - 1 }
    if g.goalCelebrationTimer = 0 then
      let g : GameState := { g with goalCelebrationTeam := none, particles := [] }
      if g.gameEndCelebrationActive = true then
        { g with gameEndCelebrationActive := false, overtimeActive := false }
      else { g with gameOver := false }
    else g
  else g

/-- `Scoreboard.game_active_effect`: dim fill on the base segment, the
(empty) unused segment off, the overhead rings at `(191,191,191)`, written
at most once per phase entry via the `game_lights_set` guard. -/
def gameActiveEffect (sb : Scoreboard) : Scoreboard :=
  match sb.pixels with
  | none => sb
  | some p =>
    if sb.gameState.gameLightsSet = true then sb
    else
      let buf2 : ℕ → RGB := fun i =>
        if i < BASE_COUNT then (5, 5, 5)
        else if i < OVERHEAD_START_INDEX then (0, 0, 0)
        else if i < TOTAL_LED_COUNT then (191, 191, 191)
        else p.buf i
      { sb with pixels := some { p with buf := buf2 },
                gameState := { sb.gameState with gameLightsSet := true } }

/-! ### RFID player-profile loading and the setup screen -/

/-- A dropdown as `load_player_profile` sees it: just the selected index. -/
structure Dropdown where
  selectedIndex : ℕ
deriving DecidableEq

/-- `self.players[key]` lookup through `key in self.players`: the player
store is a JSON object, modelled as an association list. -/
def pyDictGet (ps : List (String × PlayerData)) (k : String) : Option PlayerData :=
  (ps.find? (fun p => p.1 == k)).map (fun p => p.2)

/-- Python `list.index`, returning the first index or `None` for the caught
`ValueError`. -/
def pyListIndex (l : List String) (x : String) : Option ℕ :=
  l.findIdx? (fun y => y == x)

/-- `Scoreboard.trigger_scan_animation`: no-op when no primary color dict
was found; otherwise starts the 3-second scan animation, defaulting the
secondary color to a half-brightness primary. -/
def triggerScanAnimation (playerNum : ℕ) (priColorDict secColorDict : Option ColorDict)
    (now : ℕ) (g : GameState) : GameState :=
  match priColorDict with
  | none => g
  | some pri =>
    { g with rfidScanAnimationActive := true,
             rfidScanAnimationPlayer := some playerNum,
             rfidScanAnimationStartTime := now,
             rfidScanAnimationEndTime := now + 3000,
             rfidScanAnimationPriColor := pri.led,
             rfidScanAnimationSecColor :=
               match secColorDict with
               | some sec => sec.led
               | none => (pri.led.1 / 2, pri.led.2.1 / 2, pri.led.2.2 / 2) }

/-- The dropdowns and game state coming out of `load_player_profile`. -/
structure ProfileLoadResult where
  nameDd : Dropdown
  priColorDd : Dropdown
  secColorDd : Dropdown
  gs : GameState

/-- `Scoreboard.load_player_profile` at wall-clock time `now`: a known card
updates each dropdown independently (each `list.index` wrapped in its own
`try/except ValueError`), starts the scan animation and the welcome
message; an unknown card only raises the transient load message. -/
def loadPlayerProfile (players : List (String × PlayerData)) (customColors : List ColorDict)
    (now : ℕ) (cardId : ℕ) (playerNum : ℕ)
    (nameDd priColorDd secColorDd : Dropdown)
    (playerNamesList colorNamesList secColorNamesList : List String)
    (g : GameState) : ProfileLoadResult :=
  let cardIdStr := natReprS cardId
  match pyDictGet players cardIdStr with
  | some playerData =>
    let nameDd : Dropdown := match pyListIndex playerNamesList playerData.name with
      | some i => { nameDd with selectedIndex := i }
      | none => nameDd
    let priColorDd : Dropdown := match pyListIndex colorNamesList playerData.primaryColor with
      | some i => { priColorDd with selectedIndex := i }
      | none => priColorDd
    let secColorDd : Dropdown :=
      match pyListIndex secColorNamesList playerData.secondaryColor with
      | some i => { secColorDd with selectedIndex := i }
      | none => secColorDd
    let priColorDict := customColors.find? (fun c => c.name == playerData.primaryColor)
    let secColorDict := customColors.find? (fun c => c.name == playerData.secondaryColor)
    let g : GameState := triggerScanAnimation playerNum priColorDict secColorDict now g
    let g : GameState := { g with
      rfidWelcomeMessage := "Welcome " ++ playerData.name,
      rfidWelcomeMessageEndTime := now + 2000,
      rfidWelcomeMessagePlayer := some playerNum,
      rfidWelcomeMessageColor :=
        match priColorDict with
        | some pri => pri.display
        | none => (255, 255, 255) }
    ⟨nameDd, priColorDd, secColorDd, g⟩
  | none =>
    ⟨nameDd, priColorDd, secColorDd,
      { g with rfidLoadMessage := "No data on card",
               rfidLoadMessageEndTime := now + 2000,
               rfidLoadMessagePlayer := some playerNum }⟩

/-- The transient-message expiry checks at the top of each `run` loop
iteration: a non-empty message is blanked once `current_time` is strictly
past its end time. -/
def clearRfidMessages (currentTime : ℕ) (g : GameState) : GameState :=
  let g : GameState :=
    if g.rfidSaveMessage ≠ "" ∧ g.rfidSaveMessageEndTime < currentTime then
      { g with rfidSaveMessage := "" }
    else g
  let g : GameState :=
    if g.rfidLoadMessage ≠ "" ∧ g.rfidLoadMessageEndTime < currentTime then
      { g with rfidLoadMessage := "" }
    else g
  if g.rfidWelcomeMessage ≠ "" ∧ g.rfidWelcomeMessageEndTime < currentTime then
    { g with rfidWelcomeMessage := "" }
  else g

/-- The hard-coded player roster of the setup screen. -/
def PLAYER_NAMES : List String :=
  ["USSR", "USA", "Grandpa", "Oma", "Kristin", "Allie", "Mike", "Joe",
   "Megan", "Bobby", "Lauren", "Sammi", "Maria", "Becca", "Patrick",
   "Josie", "Andrew", "Emma", "Daniel", "Lizzie", "Twin A", "Twin B",
   "Tom", "Rachel", "Matt", "Ryan"]

def VISITOR_NAMES : List String := PLAYER_NAMES.filter (fun n => n ≠ "USA")

def HOME_NAMES : List String := PLAYER_NAMES.filter (fun n => n ≠ "USSR")

/-- The setup-screen dropdown selections held by `run`. -/
structure SetupDropdowns where
  p1NameIdx : ℕ
  p1PriIdx : ℕ
  p1SecIdx : ℕ
  p2NameIdx : ℕ
  p2PriIdx : ℕ
  p2SecIdx : ℕ
deriving DecidableEq

/-- `options[selected_index]` on a name list (the source would raise an
`IndexError` out of range; indices are kept in range by the UI). -/
def listGetD (l : List String) (i : ℕ) : String := (l[i]?).getD ""

/-- The both-players-ready block of the `run` loop in SETUP mode: locks in
names and colors from the dropdowns and launches the intro video
(`play_video_hardware` switches `game_mode` to VIDEO). -/
def bothReadyCheck (dd : SetupDropdowns) (secColorNames : List String)
    (sb : Scoreboard) : Scoreboard :=
  let g := sb.gameState
  if g.player1Ready = true ∧ g.player2Ready = true then
    let g : GameState := { g with
      player1Name := listGetD VISITOR_NAMES dd.p1NameIdx,
      player2Name := listGetD HOME_NAMES dd.p2NameIdx,
      player1PrimaryColor := sb.customColors[dd.p1PriIdx]?,
      player2PrimaryColor := sb.customColors[dd.p2PriIdx]?,
      player1SecondaryColor :=
        if listGetD secColorNames dd.p1SecIdx = "None" then none
        else sb.customColors[dd.p1SecIdx - 1]?,
      player2SecondaryColor :=
        if listGetD secColorNames dd.p2SecIdx = "None" then none
        else sb.customColors[dd.p2SecIdx - 1]? }
    { sb with gameState := { g with gameMode := "VIDEO" } }
  else sb

/-- `Scoreboard.stop_video`: ends the intro video and enters GAME mode. -/
def stopVideo (sb : Scoreboard) : Scoreboard :=
  { sb with gameState := { sb.gameState with gameMode := "GAME" } }

/-- The `K_r` key handler (GAME mode): back to SETUP and `reset()`.  Note
that neither this path nor `reset()` touches the LED strip or its
brightness.  The volume-button press after a game over takes the same path. -/
def resetKeyPressed (sb : Scoreboard) : Scoreboard :=
  { sb with gameState := GameState.reset { sb.gameState with gameMode := "SETUP" } }

/-- The colors `load_custom_colors` installs when the file is missing. -/
def defaultCustomColors : List ColorDict :=
  [⟨"Default Red", (255, 0, 0), (200, 0, 0)⟩, ⟨"Black", (0, 0, 0), (0, 0, 0)⟩,
   ⟨"Default White", (255, 255, 255), (255, 255, 255)⟩]

/-- `Scoreboard.__init__` on a machine with LED strip and motor present and
the default color file: ends with `clear_leds()`. -/
def initScoreboard : Scoreboard :=
  clearLeds
    { gameState := initGameState,
      pixels := some ⟨LED_BRIGHTNESS, fun _ => (0, 0, 0)⟩,
      customColors := defaultCustomColors,
      motorPresent := true,
      videoInterruptRequested := false }

/-- The dropdown start indices computed at the top of `run`: player 1
defaults to `USSR` / `Default Red`, player 2 to `USA` / `Blue` (falling
back to index 0 when the color name is absent, as with the default file). -/
def initSetupDropdowns (sb : Scoreboard) : SetupDropdowns :=
  let colorNames := sb.customColors.map ColorDict.name
  { p1NameIdx := (pyListIndex VISITOR_NAMES "USSR").getD 0,
    p1PriIdx := (pyListIndex colorNames "Default Red").getD 0,
    p1SecIdx := 0,
    p2NameIdx := (pyListIndex HOME_NAMES "USA").getD 0,
    p2PriIdx := (pyListIndex colorNames "Blue").getD 0,
    p2SecIdx := 0 }

/-- `Scoreboard.update_motor`: switches the faceoff motor off once its stop
time has passed. -/
def updateMotor (now : ℕ) (sb : Scoreboard) : Scoreboard :=
  if sb.gameState.motorActive = true ∧ sb.motorPresent = true ∧
      sb.gameState.motorStopTime ≤ now then
    { sb with gameState :=
        { sb.gameState with motorActive := false, motorStopTime := 0 } }
  else sb

/-- The GAME-mode per-frame state-update block of the `run` loop after
`update_clock` (`update_motor; check_period_end; update_intermission;
update_goal_celebration_timer; update_sog_timer`).  `update_clock` itself
only rewrites `game_clock` (see the C2 theorem) and is composed separately:
its rational arithmetic does not reduce inside the kernel, and in the C9
trace the clock value is irrelevant and stays positive.  The rest of the
frame only touches the particle list (`update_goal_celebration_effects`,
randomised) and the LED buffer and animation counters
(`update_goal_animation`, `idle_effect`), none of which writes the strip
brightness or the phase flags; the LED branch that calls
`game_active_effect` or `clear_leds` is applied explicitly where taken. -/
def gameFrameRest (now : ℕ) (sb : Scoreboard) : Scoreboard :=
  let sb : Scoreboard := updateMotor now sb
  let sb : Scoreboard := checkPeriodEnd sb
  let sb : Scoreboard := updateIntermission sb
  let sb : Scoreboard := { sb with gameState := updateGoalCelebrationTimer sb.gameState }
  { sb with gameState := sb.gameState.updateSogTimer }

/-- A concrete mid-celebration state (GAME mode, celebration for `USA`
active, its timer one frame from expiry, game not over). -/
def c3State : GameState :=
  { initGameState with gameMode := "GAME", goalCelebrationTimer := 1,
                       goalCelebrationTeam := some "USA" }

/-- A concrete in-game state with a goal celebration in progress. -/
def celebScoreboard : Scoreboard :=
  { initScoreboard with gameState :=
      { initScoreboard.gameState with gameMode := "GAME",
                                      goalCelebrationTeam := some "USA" } }

/-- A concrete active-play state with 1 ms on the clock (the spec scenario:
`timeMultiplier = 10`, phase ACTIVE). -/
def c2ClockState : GameState :=
  { initGameState with gameMode := "GAME", gameActive := true, gameClock := 1 }

/-- A concrete end-of-period state: clock exhausted in period 1. -/
def c2Board : Scoreboard :=
  { initScoreboard with gameState :=
      { initScoreboard.gameState with gameMode := "GAME", gameClock := 0 } }

/-- A concrete sudden-death state (regulation ended tied; overtime flagged
by `check_period_end` and intermission finished). -/
def otBoard : Scoreboard :=
  { initScoreboard with gameState :=
      { initScoreboard.gameState with gameMode := "GAME", overtimeActive := true } }

/-- A concrete in-game state with no celebration and no overtime. -/
def celebFreeBoard : Scoreboard :=
  { initScoreboard with gameState :=
      { initScoreboard.gameState with gameMode := "GAME" } }

/-- A player store holding one card whose saved name is not on the current
roster while both saved colors are available. -/
def c10Players : List (String × PlayerData) :=
  [("123", ⟨"Ghost", "Default Red", "None"⟩)]

/-- The event trace exhibiting the brightness leak (C9), exactly as the
event loop drives the handlers: both players mark ready on the setup
screen, the ready check locks the profiles in and plays the intro video,
the video ends (GAME mode), a faceoff edge starts play (clearing the LEDs
to default brightness), the frame update block and `game_active_effect`
run, a USA goal fires (raising the strip brightness to maximum and starting
the goal animation), the next frame update block runs, and the `R` key
resets to the setup screen.  `reset()` clears the animation flags but
neither it nor any step of the SETUP screen restores the brightness.  The
frames between these events only run the modelled update block (plus
`update_clock`, particle and LED-buffer work), none of which writes the
brightness. -/
def c9Trace : Scoreboard :=
  let s1 := handlePlayer1Faceoff 0 initScoreboard
  let s2 := handlePlayer2Faceoff 0 s1
  let s3 := bothReadyCheck (initSetupDropdowns initScoreboard)
    ("None" :: (initScoreboard.customColors.map ColorDict.name)) s2
  let s4 := stopVideo s3
  let s5 := handlePlayer1Faceoff 1000 s4
  let s6 := gameFrameRest 1000 s5
  let s7 := gameActiveEffect s6
  let s8 := handleUsaGoal s7
  let s9 := gameFrameRest 1016 s8
  resetKeyPressed s9

theorem natDigitsRev_lt (fuel : ℕ) :
    ∀ n d, d ∈ natDigitsRev fuel n → d < 10 := by
  induction fuel with
  | zero => intro n d h; simp [natDigitsRev] at h
  | succ fuel ih =>
    intro n d h
    by_cases h0 : n = 0
    · simp [natDigitsRev, h0] at h
    · simp only [natDigitsRev, h0, if_false, List.mem_cons] at h
      rcases h with h | h
      · subst h; exact Nat.mod_lt _ (by norm_num)
      · exact ih _ _ h

theorem ofDigitsRev_natDigitsRev (fuel : ℕ) :
    ∀ n, n ≤ fuel → ofDigitsRev (natDigitsRev fuel n) = n := by
  induction fuel with
  | zero =>
    intro n hn
    interval_cases n
    simp [natDigitsRev, ofDigitsRev]
  | succ fuel ih =>
    intro n hn
    by_cases h0 : n = 0
    · simp [natDigitsRev, h0, ofDigitsRev]
    · have hdiv : n / 10 ≤ fuel := by
        have h1 : n / 10 < n := Nat.div_lt_self (Nat.pos_of_ne_zero h0) (by norm_num)
        omega
      simp only [natDigitsRev, h0, if_false, ofDigitsRev, ih _ hdiv]
      omega

theorem foldl_reverse_ofDigitsRev (ds : List ℕ) :
    ∀ a : ℕ, ds.reverse.foldl (fun x d => x * 10 + d) a =
      a * 10 ^ ds.length + ofDigitsRev ds := by
  induction ds with
  | nil => intro a; simp [ofDigitsRev]
  | cons d ds ih =>
    intro a
    simp only [List.reverse_cons, List.foldl_append, List.foldl_cons, List.foldl_nil,
      ih, ofDigitsRev, List.length_cons]
    ring

theorem charDigitVal_digitToChar {d : ℕ} (hd : d < 10) :
    charDigitVal (digitToChar d) = d := by
  interval_cases d <;> decide

theorem isDigit_digitToChar {d : ℕ} (hd : d < 10) :
    (digitToChar d).isDigit = true := by
  interval_cases d <;> decide

theorem foldl_charDigit (ds : List ℕ) (hds : ∀ d ∈ ds, d < 10) :
    ∀ a : ℕ, (ds.map digitToChar).foldl (fun x c => x * 10 + charDigitVal c) a =
      ds.foldl (fun x d => x * 10 + d) a := by
  induction ds with
  | nil => intro a; simp
  | cons d ds ih =>
    intro a
    simp only [List.map_cons, List.foldl_cons]
    rw [charDigitVal_digitToChar (hds d (by simp))]
    exact ih (fun x hx => hds x (by simp [hx])) _

/-- Rendering a natural number in decimal and parsing it back is the
identity: the round trip that the color-file format relies on. -/
theorem pyIntS_natReprS (n : ℕ) : pyIntS (natReprS n) = some n := by
  by_cases h0 : n = 0
  · subst h0; decide
  · have hlt : ∀ d ∈ natDigitsRev (n + 1) n, d < 10 := fun d hd => natDigitsRev_lt _ _ _ hd
    have hne : natDigitsRev (n + 1) n ≠ [] := by
      simp [natDigitsRev, h0]
    have hdata : (natReprS n).data = ((natDigitsRev (n + 1) n).map digitToChar).reverse := by
      simp [natReprS, h0]
    rw [pyIntS, hdata, ← List.map_reverse]
    have hne2 : (natDigitsRev (n + 1) n).reverse.map digitToChar ≠ [] := by
      simp [hne]
    have hall : ((natDigitsRev (n + 1) n).reverse.map digitToChar).all
        (fun c => c.isDigit) = true := by
      rw [List.all_eq_true]
      intro c hc
      rw [List.mem_map] at hc
      rcases hc with ⟨d, hd, rfl⟩
      exact isDigit_digitToChar (hlt d (List.mem_reverse.mp hd))
    rw [if_pos ⟨hne2, hall⟩,
      foldl_charDigit _ (fun d hd => hlt d (List.mem_reverse.mp hd)),
      foldl_reverse_ofDigitsRev]
    simp [ofDigitsRev_natDigitsRev (n + 1) n (by omega)]

theorem parseColorLine_entryFields (e : CEntry) :
    parseColorLine (entryFields e) = .ok (some (e, false)) := by
  obtain ⟨n, ⟨l1, l2, l3⟩, ⟨d1, d2, d3⟩⟩ := e
  simp [entryFields, parseColorLine, pyIntS_natReprS]

theorem parseColorFile_saveColors (cs : List CEntry) :
    parseColorFile (saveColors cs) = .ok (cs, false) := by
  induction cs with
  | nil => rfl
  | cons e es ih =>
    simp only [saveColors, List.map_cons]
    simp only [parseColorFile, parseColorLine_entryFields]
    rw [show (es.map entryFields) = saveColors es from rfl, ih]
    rfl

theorem parseColorLine_oldFields (p : String × RGB) :
    parseColorLine (oldFields p) = .ok (some (dupEntry p, true)) := by
  obtain ⟨n, ⟨r, g, b⟩⟩ := p
  simp [oldFields, parseColorLine, pyIntS_natReprS, dupEntry]

theorem parseColorFile_oldFile (ps : List (String × RGB)) :
    parseColorFile (oldFile ps) = .ok (ps.map dupEntry, !ps.isEmpty) := by
  induction ps with
  | nil => rfl
  | cons p ps ih =>
    simp only [oldFile, List.map_cons]
    simp only [parseColorFile, parseColorLine_oldFields]
    rw [show (ps.map oldFields) = oldFile ps from rfl, ih]
    simp

/-- Save-then-load on any store: the file parses back exactly, and the
returned store is the parsed store padded with `Black` when short. -/
theorem loadColors_saveColors (cs : List CEntry) :
    loadColors (saveColors cs) = (padBlack cs, saveColors cs) := by
  simp [loadColors, parseColorFile_saveColors, padBlack]

theorem savedColors_updateCurrent (st : PickerState) :
    (updateCurrentColorsFromSelection st).savedColors = st.savedColors := by
  rw [updateCurrentColorsFromSelection]
  split
  · split <;> rfl
  · rfl

theorem length_eraseIdx_ge (l : List α) (i : ℕ) :
    l.length - 1 ≤ (l.eraseIdx i).length := by
  induction l generalizing i with
  | nil => simp [List.eraseIdx]
  | cons a l ih =>
    cases i with
    | zero => simp [List.eraseIdx]
    | succ i =>
      simp only [List.eraseIdx, List.length_cons]
      have := ih i
      omega

theorem savedColors_rgbAdjust (st : PickerState) (i : ℕ) (d : ℤ) :
    (rgbAdjust st i d).savedColors = st.savedColors := by
  rw [rgbAdjust]
  split <;> rfl

theorem length_commitColors (st : PickerState) :
    (commitColors st).savedColors.length = st.savedColors.length := by
  rw [commitColors]
  split
  · split
    · split
      · simp [List.length_set]
      · rfl
    · rfl
  · rfl

/-- Save-then-load on an old-format file: every RGB triple is duplicated
into both slots, the store is padded when short, and the file is rewritten
in 7-field form (for the empty file both sides are the empty file). -/
theorem loadColors_oldFile (ps : List (String × RGB)) :
    loadColors (oldFile ps) =
      (padBlack (ps.map dupEntry), saveColors (ps.map dupEntry)) := by
  cases ps with
  | nil => rfl
  | cons p ps => simp [loadColors, parseColorFile_oldFile, padBlack]

/-- C5 counterexample: the claim asserts the save/load round trip returns
the identical sequence for every list of entries, but for a single-entry
store `load_colors` appends a default `Black` entry
(`if len(self.saved_colors) < 2`), so the loaded store has two entries. -/
theorem C5_counterexample :
    (loadColors (saveColors [⟨"Default Red", (255, 0, 0), (200, 0, 0)⟩])).1 ≠
      [⟨"Default Red", (255, 0, 0), (200, 0, 0)⟩] := by
  decide

/-- C5 (amended): for every store of at least two entries, saving to the
color file and loading it back yields the identical ordered (name, ledRGB,
displayRGB) sequence; a shorter store is returned padded with the default
`Black` entry.  A 4-field old-format file is accepted, every RGB triple is
duplicated into both slots, and the file is rewritten in 7-field form so
that a second load returns the same sequence and leaves the file unchanged
(the upgrade is idempotent). -/
theorem C5_color_file_round_trip :
    (∀ cs : List CEntry, 2 ≤ cs.length →
      loadColors (saveColors cs) = (cs, saveColors cs)) ∧
    (∀ ps : List (String × RGB),
      loadColors (oldFile ps) =
        (padBlack (ps.map dupEntry), saveColors (ps.map dupEntry))) ∧
    (∀ ps : List (String × RGB),
      loadColors ((loadColors (oldFile ps)).2) = loadColors (oldFile ps)) := by
  refine ⟨?_, loadColors_oldFile, ?_⟩
  · intro cs h
    rw [loadColors_saveColors]
    simp only [padBlack]
    rw [if_neg (by omega)]
  · intro ps
    rw [loadColors_oldFile, loadColors_saveColors]

/-- Witness for C5: the round trip evaluated on a concrete two-entry store. -/
theorem C5_color_file_round_trip_witness :
    2 ≤ ([cRedEntry, cBlueEntry] : List CEntry).length ∧
    loadColors (saveColors [cRedEntry, cBlueEntry]) =
      ([cRedEntry, cBlueEntry], saveColors [cRedEntry, cBlueEntry]) :=
  ⟨by decide, C5_color_file_round_trip.1 [cRedEntry, cBlueEntry] (by decide)⟩

/-- C6: the color store always retains at least one entry.  A delete issued
when the store holds exactly one entry is rejected and leaves the state
unchanged; loading (including the missing-file and parse-error fallbacks)
always produces a non-empty store; and add, rename, RGB-adjustment commit
and delete all preserve non-emptiness. -/
theorem C6_store_never_empty :
    (∀ st : PickerState, st.savedColors.length = 1 → deleteColor st = st) ∧
    (∀ (fileExists : Bool) (file : List (List String)),
      0 < (loadColorsInit fileExists file).1.length) ∧
    (∀ st : PickerState, 0 < (addColor st).savedColors.length) ∧
    (∀ st : PickerState, 0 < st.savedColors.length →
      0 < (renameColor st).savedColors.length) ∧
    (∀ (st : PickerState) (i : ℕ) (d : ℤ), 0 < st.savedColors.length →
      0 < (commitColors (rgbAdjust st i d)).savedColors.length) ∧
    (∀ st : PickerState, 0 < st.savedColors.length →
      0 < (deleteColor st).savedColors.length) := by
  refine ⟨?_, ?_, ?_, ?_, ?_, ?_⟩
  · intro st h
    rw [deleteColor, if_neg]
    intro hc
    omega
  · intro fileExists file
    cases fileExists with
    | false =>
      show 0 < defaultEntriesNew.length
      decide
    | true =>
      show 0 < (loadColors file).1.length
      unfold loadColors
      split
      · show 0 < defaultEntriesOnError.length
        decide
      · dsimp only
        split
        · simp
        · omega
  · intro st
    simp only [addColor]
    rw [savedColors_updateCurrent]
    simp
  · intro st h
    rw [renameColor]
    split
    · simpa [List.length_set] using h
    · exact h
  · intro st i d h
    rw [length_commitColors, savedColors_rgbAdjust]
    exact h
  · intro st h
    rw [deleteColor]
    split
    · next hc =>
      rw [savedColors_updateCurrent]
      have := length_eraseIdx_ge st.savedColors st.primaryIndex
      dsimp only
      omega
    · exact h

/-- Witness for C6: delete on a concrete one-entry store is a no-op, and a
rename on it keeps the store non-empty. -/
theorem C6_store_never_empty_witness :
    deleteColor singletonPicker = singletonPicker ∧
    0 < (renameColor singletonPicker).savedColors.length :=
  ⟨C6_store_never_empty.1 singletonPicker (by decide),
    C6_store_never_empty.2.2.2.1 singletonPicker (by decide)⟩

/-- Helper: the per-frame message sweep blanks the transient load message
once the current time is strictly past its end time. -/
theorem clearRfidMessages_load (t : ℕ) (g : GameState)
    (hm : g.rfidLoadMessage = "No data on card")
    (hlt : g.rfidLoadMessageEndTime < t) :
    (clearRfidMessages t g).rfidLoadMessage = "" := by
  have hne : g.rfidLoadMessage ≠ "" := by rw [hm]; decide
  unfold clearRfidMessages
  try dsimp only
  split_ifs <;> simp_all

set_option maxHeartbeats 2000000

/-- C1: a goal-sensor edge accepted by the handlers (game not over, no goal
celebration active for either side) increases the scoring side's score by
exactly 1 and leaves the other side's score unchanged; an edge arriving
while a goal celebration is already active leaves the whole state — in
particular both sides' scores and shots-on-goal — unchanged.  Applied to
each edge of a sequence in turn, this gives the idempotent-ignore property
for all sequences of goal-sensor edges. -/
theorem C1_goal_edge_scoring (sb : Scoreboard) :
    (sb.gameState.gameOver = false → teamTruthy sb.gameState.goalCelebrationTeam = false →
      (handleUsaGoal sb).gameState.usaScore = sb.gameState.usaScore + 1 ∧
      (handleUsaGoal sb).gameState.ussrScore = sb.gameState.ussrScore ∧
      (handleUssrGoal sb).gameState.ussrScore = sb.gameState.ussrScore + 1 ∧
      (handleUssrGoal sb).gameState.usaScore = sb.gameState.usaScore) ∧
    (teamTruthy sb.gameState.goalCelebrationTeam = true →
      handleUsaGoal sb = sb ∧ handleUssrGoal sb = sb) := by
  obtain ⟨gs, pix, cc, mp, vir⟩ := sb
  constructor
  · intro hgo hct
    cases pix with
    | none =>
      refine ⟨?_, ?_, ?_, ?_⟩ <;>
      · simp only [handleUsaGoal, handleUssrGoal, triggerGameEnd]
        try dsimp only
        rw [if_pos ⟨hgo, hct⟩]
        try dsimp only
        split_ifs <;> rfl
    | some p =>
      refine ⟨?_, ?_, ?_, ?_⟩ <;>
      · simp only [handleUsaGoal, handleUssrGoal, triggerGameEnd]
        try dsimp only
        rw [if_pos ⟨hgo, hct⟩]
        try dsimp only
        split_ifs <;> rfl
  · intro hct
    constructor <;>
    · simp only [handleUsaGoal, handleUssrGoal]
      rw [if_neg (by simp [hct])]

/-- Witness for C1: a goal on the fresh scoreboard scores exactly 1, and a
goal edge during an active celebration is a no-op. -/
theorem C1_goal_edge_scoring_witness :
    (handleUsaGoal initScoreboard).gameState.usaScore =
      initScoreboard.gameState.usaScore + 1 ∧
    handleUsaGoal celebScoreboard = celebScoreboard :=
  ⟨((C1_goal_edge_scoring initScoreboard).1 rfl rfl).1,
    ((C1_goal_edge_scoring celebScoreboard).2 rfl).1⟩

/-- C2: one clock update keeps `game_clock` non-negative, clamping at 0
when the decrement overshoots; and when the clock has reached zero with
`period < 3` (game not over, no intermission or overtime active) the next
period-end check stops the clock, enters the intermission state with its
3-second (`3 * FPS` frame) timer, and does not set `game_over`. -/
theorem C2_clock_clamp_and_intermission :
    (∀ (g : GameState) (dt : ℕ), 0 ≤ g.gameClock → 0 ≤ (g.updateClock dt).gameClock) ∧
    (∀ (g : GameState) (dt : ℕ), g.gameActive = true → 0 < g.gameClock →
      g.gameClock - dt * g.timeMultiplier < 0 → (g.updateClock dt).gameClock = 0) ∧
    (∀ sb : Scoreboard, sb.gameState.gameClock = 0 → sb.gameState.gameOver = false →
      sb.gameState.intermissionActive = false → sb.gameState.overtimeActive = false →
      sb.gameState.period < 3 →
      (checkPeriodEnd sb).gameState.gameActive = false ∧
      (checkPeriodEnd sb).gameState.intermissionActive = true ∧
      (checkPeriodEnd sb).gameState.intermissionTimer = 3 * FPS ∧
      (checkPeriodEnd sb).gameState.gameOver = false) := by
  refine ⟨?_, ?_, ?_⟩
  · intro g dt h
    unfold GameState.updateClock
    try dsimp only
    split_ifs with h1 h2
    · exact le_refl 0
    · exact le_of_not_lt h2
    · exact h
  · intro g dt ha hc hneg
    unfold GameState.updateClock
    try dsimp only
    rw [if_pos ⟨ha, hc⟩, if_pos hneg]
  · intro sb h0 hgo hi hov hp
    obtain ⟨gs, pix, cc, mp, vir⟩ := sb
    dsimp only at h0 hgo hi hov hp
    simp only [checkPeriodEnd]
    try dsimp only
    rw [if_neg (by simp [h0, hgo, hi, hov]), if_pos hp]
    exact ⟨rfl, rfl, rfl, hgo⟩

/-- Witness for C2: the spec scenario — 1 ms on the clock with
`time_multiplier = 10` clamps to 0 in one update, and the period-end check
at period 1 enters intermission without ending the game. -/
theorem C2_clock_clamp_and_intermission_witness :
    (c2ClockState.updateClock 1).gameClock = 0 ∧
    (checkPeriodEnd c2Board).gameState.intermissionActive = true ∧
    (checkPeriodEnd c2Board).gameState.gameOver = false := by
  refine ⟨?_, ?_, ?_⟩
  · refine C2_clock_clamp_and_intermission.2.1 c2ClockState 1 rfl ?_ ?_
    · show (0 : ℚ) < 1
      norm_num
    · show (1 : ℚ) - 1 * 10 < 0
      norm_num
  · exact (C2_clock_clamp_and_intermission.2.2 c2Board rfl rfl rfl rfl
      (by decide)).2.1
  · exact (C2_clock_clamp_and_intermission.2.2 c2Board rfl rfl rfl rfl
      (by decide)).2.2.2

/-- C3 counterexample: the claim says that when the goal-celebration timer
reaches zero and the game is not over, the game returns to the ACTIVE
phase with the clock running again.  At this concrete mid-celebration
state (timer one frame from expiry, game not over, clock stopped as the
goal handler left it) the timer update clears the celebration side but
leaves `game_active = false`: the clock does not run again until a faceoff
edge. -/
theorem C3_counterexample :
    c3State.gameOver = false ∧
    (updateGoalCelebrationTimer c3State).goalCelebrationTeam = none ∧
    (updateGoalCelebrationTimer c3State).gameActive = false :=
  ⟨rfl, rfl, rfl⟩

/-- C3 (amended): when the goal-celebration timer reaches zero and no
game-end celebration is active, the update clears the celebration side and
the particles and drops `game_over`, all without further input — but it
leaves `game_active` unchanged (false after a goal), so the clock stays
stopped; active play with a running clock resumes only on a subsequent
faceoff edge, whose sequence sets `game_active` and clears the celebration
side. -/
theorem C3_celebration_timeout (g : GameState)
    (ht : g.goalCelebrationTimer = 1) (he : g.gameEndCelebrationActive = false) :
    ((updateGoalCelebrationTimer g).goalCelebrationTeam = none ∧
     (updateGoalCelebrationTimer g).particles = [] ∧
     (updateGoalCelebrationTimer g).gameOver = false ∧
     (updateGoalCelebrationTimer g).gameActive = g.gameActive) ∧
    (∀ (now : ℕ) (sb : Scoreboard), sb.gameState.gameOver = false →
      sb.gameState.motorActive = false →
      (startFaceoffSequence now sb).gameState.gameActive = true ∧
      (startFaceoffSequence now sb).gameState.goalCelebrationTeam = none) := by
  constructor
  · simp [updateGoalCelebrationTimer, ht, he]
  · intro now sb hgo hma
    obtain ⟨gs, pix, cc, mp, vir⟩ := sb
    cases pix with
    | none =>
      simp only [startFaceoffSequence, clearLeds]
      try dsimp only
      rw [if_pos ⟨hgo, hma⟩]
      try dsimp only
      split_ifs <;> simp_all
    | some p =>
      simp only [startFaceoffSequence, clearLeds]
      try dsimp only
      rw [if_pos ⟨hgo, hma⟩]
      try dsimp only
      split_ifs <;> simp_all

/-- Witness for C3: evaluated at the concrete mid-celebration state and at
the fresh scoreboard for the faceoff half. -/
theorem C3_celebration_timeout_witness :
    (updateGoalCelebrationTimer c3State).goalCelebrationTeam = none ∧
    (startFaceoffSequence 0 initScoreboard).gameState.gameActive = true := by
  have h := C3_celebration_timeout c3State rfl rfl
  exact ⟨h.1.1, (h.2 0 initScoreboard rfl rfl).1⟩

/-- C4: in sudden-death overtime (game not over, no celebration active)
the next goal-sensor edge on either side ends the game immediately:
`game_over` becomes true and the win-celebration overlay state
(`game_end_celebration_active`) is entered directly, while
`goal_celebration_team` stays unchanged — the goal-celebration phase is not
re-entered for that goal. -/
theorem C4_sudden_death_goal (sb : Scoreboard)
    (hot : sb.gameState.overtimeActive = true)
    (hgo : sb.gameState.gameOver = false)
    (hct : teamTruthy sb.gameState.goalCelebrationTeam = false) :
    (handleUsaGoal sb).gameState.gameOver = true ∧
    (handleUsaGoal sb).gameState.gameEndCelebrationActive = true ∧
    (handleUsaGoal sb).gameState.goalCelebrationTeam = sb.gameState.goalCelebrationTeam ∧
    (handleUssrGoal sb).gameState.gameOver = true ∧
    (handleUssrGoal sb).gameState.gameEndCelebrationActive = true ∧
    (handleUssrGoal sb).gameState.goalCelebrationTeam = sb.gameState.goalCelebrationTeam := by
  obtain ⟨gs, pix, cc, mp, vir⟩ := sb
  cases pix with
  | none =>
    refine ⟨?_, ?_, ?_, ?_, ?_, ?_⟩ <;>
    · simp only [handleUsaGoal, handleUssrGoal, triggerGameEnd]
      try dsimp only
      rw [if_pos ⟨hgo, hct⟩]
      try dsimp only
      split_ifs <;> rfl
  | some p =>
    refine ⟨?_, ?_, ?_, ?_, ?_, ?_⟩ <;>
    · simp only [handleUsaGoal, handleUssrGoal, triggerGameEnd]
      try dsimp only
      rw [if_pos ⟨hgo, hct⟩]
      try dsimp only
      split_ifs <;> rfl

/-- Witness for C4: a goal at a concrete sudden-death state ends the game
and enters the win overlay. -/
theorem C4_sudden_death_goal_witness :
    (handleUsaGoal otBoard).gameState.gameOver = true ∧
    (handleUsaGoal otBoard).gameState.gameEndCelebrationActive = true :=
  ⟨(C4_sudden_death_goal otBoard rfl rfl rfl).1,
    (C4_sudden_death_goal otBoard rfl rfl rfl).2.1⟩

/-- C7: a scanned card absent from the player store leaves all three
dropdown selections untouched and sets the transient "No data on card"
message for that player with a 2000 ms end time; the per-frame sweep clears
the message at any time strictly past that end time. -/
theorem C7_unknown_card (players : List (String × PlayerData))
    (customColors : List ColorDict) (now cardId playerNum : ℕ)
    (nameDd priColorDd secColorDd : Dropdown)
    (pn cn scn : List String) (g : GameState)
    (hmiss : pyDictGet players (natReprS cardId) = none) :
    (loadPlayerProfile players customColors now cardId playerNum nameDd priColorDd
      secColorDd pn cn scn g).nameDd = nameDd ∧
    (loadPlayerProfile players customColors now cardId playerNum nameDd priColorDd
      secColorDd pn cn scn g).priColorDd = priColorDd ∧
    (loadPlayerProfile players customColors now cardId playerNum nameDd priColorDd
      secColorDd pn cn scn g).secColorDd = secColorDd ∧
    (loadPlayerProfile players customColors now cardId playerNum nameDd priColorDd
      secColorDd pn cn scn g).gs.rfidLoadMessage = "No data on card" ∧
    (loadPlayerProfile players customColors now cardId playerNum nameDd priColorDd
      secColorDd pn cn scn g).gs.rfidLoadMessageEndTime = now + 2000 ∧
    (loadPlayerProfile players customColors now cardId playerNum nameDd priColorDd
      secColorDd pn cn scn g).gs.rfidLoadMessagePlayer = some playerNum ∧
    (∀ t, now + 2000 < t →
      (clearRfidMessages t (loadPlayerProfile players customColors now cardId playerNum
        nameDd priColorDd secColorDd pn cn scn g).gs).rfidLoadMessage = "") := by
  refine ⟨?_, ?_, ?_, ?_, ?_, ?_, ?_⟩ <;> simp only [loadPlayerProfile, hmiss]
  intro t ht
  exact clearRfidMessages_load t _ rfl ht

/-- Witness for C7: an unknown card against an empty store, with the
message cleared 2001 ms later. -/
theorem C7_unknown_card_witness :
    (loadPlayerProfile [] defaultCustomColors 1000 5 1 ⟨0⟩ ⟨2⟩ ⟨3⟩
      VISITOR_NAMES [] [] initGameState).priColorDd = ⟨2⟩ ∧
    (clearRfidMessages 3001 (loadPlayerProfile [] defaultCustomColors 1000 5 1 ⟨0⟩ ⟨2⟩ ⟨3⟩
      VISITOR_NAMES [] [] initGameState).gs).rfidLoadMessage = "" := by
  have h := C7_unknown_card [] defaultCustomColors 1000 5 1 ⟨0⟩ ⟨2⟩ ⟨3⟩
    VISITOR_NAMES [] [] initGameState rfl
  exact ⟨h.2.1, h.2.2.2.2.2.2 3001 (by norm_num)⟩

/-- C10: a known card applies each stored field independently rather than
atomically — each of the name, primary-color and secondary-color dropdowns
is set to the first index of its stored value in its own option list when
present, and left unchanged when absent, regardless of whether the other
lookups succeed (each `list.index` is wrapped in its own
`try/except ValueError`). -/
theorem C10_profile_fields_independent (players : List (String × PlayerData))
    (customColors : List ColorDict) (now cardId playerNum : ℕ)
    (nameDd priColorDd secColorDd : Dropdown)
    (pn cn scn : List String) (g : GameState) (pd : PlayerData)
    (hhit : pyDictGet players (natReprS cardId) = some pd) :
    (loadPlayerProfile players customColors now cardId playerNum nameDd priColorDd
      secColorDd pn cn scn g).nameDd.selectedIndex =
        ((pyListIndex pn pd.name).getD nameDd.selectedIndex) ∧
    (loadPlayerProfile players customColors now cardId playerNum nameDd priColorDd
      secColorDd pn cn scn g).priColorDd.selectedIndex =
        ((pyListIndex cn pd.primaryColor).getD priColorDd.selectedIndex) ∧
    (loadPlayerProfile players customColors now cardId playerNum nameDd priColorDd
      secColorDd pn cn scn g).secColorDd.selectedIndex =
        ((pyListIndex scn pd.secondaryColor).getD secColorDd.selectedIndex) := by
  simp only [loadPlayerProfile, hhit]
  refine ⟨?_, ?_, ?_⟩
  · rcases h : pyListIndex pn pd.name with _ | i <;> simp [h]
  · rcases h : pyListIndex cn pd.primaryColor with _ | i <;> simp [h]
  · rcases h : pyListIndex scn pd.secondaryColor with _ | i <;> simp [h]

/-- Witness for C10: a profile whose saved name is missing from the roster
still gets both color dropdowns updated while the name dropdown keeps its
old selection. -/
theorem C10_profile_fields_independent_witness :
    (loadPlayerProfile c10Players defaultCustomColors 0 123 1 ⟨7⟩ ⟨2⟩ ⟨3⟩
      VISITOR_NAMES ["Default Red", "Black", "Default White"]
      ["None", "Default Red", "Black", "Default White"]
      initGameState).nameDd.selectedIndex = 7 ∧
    (loadPlayerProfile c10Players defaultCustomColors 0 123 1 ⟨7⟩ ⟨2⟩ ⟨3⟩
      VISITOR_NAMES ["Default Red", "Black", "Default White"]
      ["None", "Default Red", "Black", "Default White"]
      initGameState).priColorDd.selectedIndex = 0 ∧
    (loadPlayerProfile c10Players defaultCustomColors 0 123 1 ⟨7⟩ ⟨2⟩ ⟨3⟩
      VISITOR_NAMES ["Default Red", "Black", "Default White"]
      ["None", "Default Red", "Black", "Default White"]
      initGameState).secColorDd.selectedIndex = 0 := by
  have h := C10_profile_fields_independent c10Players defaultCustomColors 0 123 1
    ⟨7⟩ ⟨2⟩ ⟨3⟩ VISITOR_NAMES ["Default Red", "Black", "Default White"]
    ["None", "Default Red", "Black", "Default White"] initGameState
    ⟨"Ghost", "Default Red", "None"⟩ (by decide)
  refine ⟨?_, ?_, ?_⟩
  · rw [h.1]; decide
  · rw [h.2.1]; decide
  · rw [h.2.2]; decide

/-- C8 counterexample: the claim says the game-active effect turns every
LED outside the base segment off, but the source sets the overhead rings
(starting at `OVERHEAD_START_INDEX`) to `(191, 191, 191)`, not to black. -/
theorem C8_counterexample :
    bufAt (gameActiveEffect initScoreboard) OVERHEAD_START_INDEX = (191, 191, 191) ∧
    ((191, 191, 191) : RGB) ≠ (0, 0, 0) := by
  exact ⟨rfl, by decide⟩

/-- C8 (amended): when a strip is present and the `game_lights_set` guard
is clear, the game-active effect writes a static low-brightness
`(5, 5, 5)` fill across the base segment, sets the overhead segment to the
bright `(191, 191, 191)` fill (not off), leaves pixels beyond the strip
untouched, and sets the guard flag; once the flag is set the effect
performs no writes at all until the flag is cleared by a phase change. -/
theorem C8_game_active_wash :
    (∀ (sb : Scoreboard) (p : LedStrip), sb.pixels = some p →
      sb.gameState.gameLightsSet = false →
      (∀ i, i < BASE_COUNT → bufAt (gameActiveEffect sb) i = (5, 5, 5)) ∧
      (∀ i, OVERHEAD_START_INDEX ≤ i → i < TOTAL_LED_COUNT →
        bufAt (gameActiveEffect sb) i = (191, 191, 191)) ∧
      (∀ i, TOTAL_LED_COUNT ≤ i → bufAt (gameActiveEffect sb) i = p.buf i) ∧
      (gameActiveEffect sb).gameState.gameLightsSet = true) ∧
    (∀ sb : Scoreboard, sb.gameState.gameLightsSet = true →
      gameActiveEffect sb = sb) := by
  constructor
  · intro sb p hp hset
    obtain ⟨gs, pix, cc, mp, vir⟩ := sb
    dsimp only at hp hset
    subst hp
    simp only [gameActiveEffect, bufAt]
    try dsimp only
    rw [if_neg (by simp [hset])]
    try dsimp only
    refine ⟨?_, ?_, ?_, rfl⟩
    · intro i hi
      rw [if_pos hi]
    · intro i h1 h2
      have hb : ¬(i < BASE_COUNT) := by
        simp only [BASE_COUNT, OVERHEAD_START_INDEX, UNUSED_COUNT] at h1 ⊢
        omega
      have ho : ¬(i < OVERHEAD_START_INDEX) := by omega
      rw [if_neg hb, if_neg ho, if_pos h2]
    · intro i h1
      have hb : ¬(i < BASE_COUNT) := by
        simp only [BASE_COUNT, TOTAL_LED_COUNT, UNUSED_COUNT, OVERHEAD_COUNT] at h1 ⊢
        omega
      have ho : ¬(i < OVERHEAD_START_INDEX) := by
        simp only [OVERHEAD_START_INDEX, BASE_COUNT, TOTAL_LED_COUNT, UNUSED_COUNT,
          OVERHEAD_COUNT] at h1 ⊢
        omega
      have ht : ¬(i < TOTAL_LED_COUNT) := by omega
      rw [if_neg hb, if_neg ho, if_neg ht]
  · intro sb hset
    obtain ⟨gs, pix, cc, mp, vir⟩ := sb
    dsimp only at hset
    cases pix with
    | none => rfl
    | some p =>
      simp only [gameActiveEffect]
      try dsimp only
      rw [if_pos hset]

/-- Witness for C8: the effect on the fresh scoreboard writes the dim base
fill and sets the guard flag. -/
theorem C8_game_active_wash_witness :
    bufAt (gameActiveEffect initScoreboard) 0 = (5, 5, 5) ∧
    (gameActiveEffect initScoreboard).gameState.gameLightsSet = true := by
  have h := C8_game_active_wash.1 initScoreboard ⟨LED_BRIGHTNESS, fun _ => (0, 0, 0)⟩
    rfl rfl
  exact ⟨h.1 0 (by decide), h.2.2.2⟩

/-- C9 counterexample: a reachable state with the strip's global
brightness at maximum while no goal or win animation is running.  The
event trace `c9Trace` reaches the SETUP screen via the `R`-key reset after
a goal: `reset()` clears the animation flags but never touches
`pixels.brightness`, which stays at 1.0 (the default is 1/2). -/
theorem C9_counterexample :
    brightnessOf c9Trace = 1 ∧
    c9Trace.gameState.goalAnimationActive = false ∧
    c9Trace.gameState.gameEndCelebrationActive = false ∧
    c9Trace.gameState.gameMode = "SETUP" ∧
    LED_BRIGHTNESS ≠ (1 : ℚ) :=
  ⟨rfl, rfl, rfl, rfl, by norm_num [LED_BRIGHTNESS]⟩

/-- C9 (amended): the strip brightness is raised to maximum exactly when a
goal/win animation starts, and the LED-clear path (faceoff, intermission
end, game-over clear, exit) restores the default brightness while stopping
the animation — but the reset-to-setup action clears the animation flags
without restoring the brightness, so the strip can be left at maximum in a
state with no goal/win animation running until the next LED clear. -/
theorem C9_brightness_policy :
    (∀ sb : Scoreboard, sb.gameState.gameOver = false →
      teamTruthy sb.gameState.goalCelebrationTeam = false →
      sb.gameState.overtimeActive = false → sb.pixels.isSome = true →
      brightnessOf (handleUsaGoal sb) = 1 ∧
      (handleUsaGoal sb).gameState.goalAnimationActive = true) ∧
    (∀ sb : Scoreboard, sb.pixels.isSome = true →
      brightnessOf (clearLeds sb) = LED_BRIGHTNESS ∧
      (clearLeds sb).gameState.goalAnimationActive = false) ∧
    (∀ sb : Scoreboard,
      brightnessOf (resetKeyPressed sb) = brightnessOf sb ∧
      (resetKeyPressed sb).gameState.goalAnimationActive = false ∧
      (resetKeyPressed sb).gameState.gameEndCelebrationActive = false) := by
  refine ⟨?_, ?_, ?_⟩
  · intro sb hgo hct hov hpix
    obtain ⟨gs, pix, cc, mp, vir⟩ := sb
    dsimp only at hgo hct hov hpix
    cases pix with
    | none => simp at hpix
    | some p =>
      constructor <;>
      · simp only [handleUsaGoal, brightnessOf]
        try dsimp only
        rw [if_pos ⟨hgo, hct⟩]
        try dsimp only
        split_ifs <;> rfl
  · intro sb hpix
    obtain ⟨gs, pix, cc, mp, vir⟩ := sb
    cases pix with
    | none => simp at hpix
    | some p => exact ⟨rfl, rfl⟩
  · intro sb
    exact ⟨rfl, rfl, rfl⟩

/-- Witness for C9: the concrete in-game state with a strip present —
a goal raises brightness to maximum, and an LED clear restores the
default. -/
theorem C9_brightness_policy_witness :
    brightnessOf (handleUsaGoal celebFreeBoard) = 1 ∧
    brightnessOf (clearLeds celebFreeBoard) = LED_BRIGHTNESS :=
  ⟨(C9_brightness_policy.1 celebFreeBoard rfl rfl rfl rfl).1,
    (C9_brightness_policy.2.1 celebFreeBoard rfl).1⟩

end BubbleHockey
